import Mathlib

/-!
Verification development for the DeltaLakeReader snapshot-resolution core
(`deltalake/deltatable.py`).  The Python class `DeltaTable` is shallowly
embedded: its mutable attributes become a record, attribute access on a
never-assigned attribute becomes an explicit `attributeError`, the
filesystem collaborator becomes an explicit structure, and every fallible
operation returns `Except PyErr`.  The JSON decoding collaborator
(`json.loads`) is embedded as an executable recursive-descent parser so
that the tokenisation done by `log.split()` can be reasoned about
faithfully.
-/

namespace DeltaLakeReader

/-- JSON values, as produced by the `json.loads` collaborator.  Numbers are
modelled as integers only; no log content considered in this development
carries fractional or exponent parts. -/
inductive JsonVal : Type where
  | null : JsonVal
  | bool (b : Bool) : JsonVal
  | num (n : Int) : JsonVal
  | str (s : String) : JsonVal
  | arr (elems : List JsonVal) : JsonVal
  | obj (fields : List (String × JsonVal)) : JsonVal

/-- Drop leading JSON whitespace from a character stream. -/
def skipWs : List Char → List Char
  | [] => []
  | c :: cs => if c = ' ' ∨ c = '\t' ∨ c = '\n' ∨ c = '\r' then skipWs cs else c :: cs

/-- Parse the body of a JSON string (the opening quote already consumed),
returning the decoded string and the remaining characters.  Raw control
characters are rejected, escape sequences are decoded. -/
def parseStringBody : Nat → List Char → List Char → Option (String × List Char)
  | 0, _, _ => none
  | _ + 1, [], _ => none
  | fuel + 1, c :: cs, acc =>
    if c = '"' then some (⟨acc.reverse⟩, cs)
    else if c = '\\' then
      match cs with
      | '"' :: rest => parseStringBody fuel rest ('"' :: acc)
      | '\\' :: rest => parseStringBody fuel rest ('\\' :: acc)
      | '/' :: rest => parseStringBody fuel rest ('/' :: acc)
      | 'n' :: rest => parseStringBody fuel rest ('\n' :: acc)
      | 't' :: rest => parseStringBody fuel rest ('\t' :: acc)
      | 'r' :: rest => parseStringBody fuel rest ('\r' :: acc)
      | _ => none
    else if c = '\n' ∨ c = '\t' ∨ c = '\r' then none
    else parseStringBody fuel cs (c :: acc)

/-- Parse a run of decimal digits into a natural number. -/
def parseNat (cs : List Char) : Option (Nat × List Char) :=
  let digits := cs.takeWhile Char.isDigit
  if digits.isEmpty then none
  else some (digits.foldl (fun n c => 10 * n + (c.toNat - 48)) 0, cs.drop digits.length)

/-- Parsing mode for the recursive JSON parser: a single value, the members
of an object (after the opening brace), or the elements of an array (after
the opening bracket). -/
inductive PMode : Type where
  | val : PMode
  | objFields (acc : List (String × JsonVal)) : PMode
  | arrElems (acc : List JsonVal) : PMode

/-- Recursive-descent JSON parser, fuelled to make the recursion structural.
Returns the parsed value and the unconsumed characters. -/
def parseJ : Nat → PMode → List Char → Option (JsonVal × List Char)
  | 0, _, _ => none
  | fuel + 1, .val, cs =>
    match skipWs cs with
    | [] => none
    | c :: rest =>
      if c = '"' then
        match parseStringBody (rest.length + 1) rest [] with
        | some (s, r) => some (.str s, r)
        | none => none
      else if c = '{' then parseJ fuel (.objFields []) (skipWs rest)
      else if c = '[' then parseJ fuel (.arrElems []) (skipWs rest)
      else if c = 't' then
        match rest with
        | 'r' :: 'u' :: 'e' :: r => some (.bool true, r)
        | _ => none
      else if c = 'f' then
        match rest with
        | 'a' :: 'l' :: 's' :: 'e' :: r => some (.bool false, r)
        | _ => none
      else if c = 'n' then
        match rest with
        | 'u' :: 'l' :: 'l' :: r => some (.null, r)
        | _ => none
      else if c = '-' then
        match parseNat rest with
        | some (n, r) => some (.num (-(n : Int)), r)
        | none => none
      else if c.isDigit then
        match parseNat (c :: rest) with
        | some (n, r) => some (.num (n : Int), r)
        | none => none
      else none
  | fuel + 1, .objFields acc, cs =>
    match cs with
    | '}' :: rest => if acc.isEmpty then some (.obj [], rest) else none
    | '"' :: rest =>
      match parseStringBody (rest.length + 1) rest [] with
      | none => none
      | some (key, r1) =>
        match skipWs r1 with
        | ':' :: r2 =>
          match parseJ fuel .val r2 with
          | none => none
          | some (v, r3) =>
            match skipWs r3 with
            | ',' :: r4 => parseJ fuel (.objFields (acc ++ [(key, v)])) (skipWs r4)
            | '}' :: r4 => some (.obj (acc ++ [(key, v)]), r4)
            | _ => none
        | _ => none
    | _ => none
  | fuel + 1, .arrElems acc, cs =>
    match cs with
    | ']' :: rest => if acc.isEmpty then some (.arr [], rest) else none
    | _ =>
      match parseJ fuel .val cs with
      | none => none
      | some (v, r1) =>
        match skipWs r1 with
        | ',' :: r2 => parseJ fuel (.arrElems (acc ++ [v])) r2
        | ']' :: r2 => some (.arr (acc ++ [v]), r2)
        | _ => none

/-- Model of `json.loads`: parse one JSON document, allowing surrounding
whitespace and requiring the whole input to be consumed.  `none` models a
raised `JSONDecodeError`. -/
def jsonLoads (s : String) : Option JsonVal :=
  match parseJ (s.length + 1) .val s.data with
  | some (v, rest) => if skipWs rest = [] then some v else none
  | none => none

/-- The characters on which Python `str.split()` (no argument) splits. -/
def pyIsSpace (c : Char) : Bool :=
  c == ' ' || c == '\t' || c == '\n' || c == '\r' || c == '\x0b' || c == '\x0c'

/-- Worker for `pySplit`: accumulate the current token (reversed) and emit
it whenever a whitespace character or the end of the input is reached,
discarding empty tokens. -/
def pySplitChars : List Char → List Char → List String
  | [], acc => if acc.isEmpty then [] else [⟨acc.reverse⟩]
  | c :: cs, acc =>
    if pyIsSpace c then
      if acc.isEmpty then pySplitChars cs [] else ⟨acc.reverse⟩ :: pySplitChars cs []
    else pySplitChars cs (c :: acc)

/-- Model of Python `s.split()` with no argument: split on runs of
whitespace, discarding empty pieces. -/
def pySplit (s : String) : List String := pySplitChars s.data []

/-- Model of Python dict lookup on a decoded JSON object: with duplicate
keys, `json.loads` keeps the last occurrence, hence the left fold. -/
def pyGet (fields : List (String × JsonVal)) (k : String) : Option JsonVal :=
  fields.foldl (fun acc f => if f.1 = k then some f.2 else acc) none

/-- Python exceptions surfaced by the embedded operations.  Shape errors on
decoded JSON that the source would hit as `TypeError`/`KeyError` when
subscripting (`meta_data['add']['path']`) are modelled by the matching
constructor; `attributeError a` models reading the never-assigned instance
attribute `a`. -/
inductive PyErr : Type where
  | fileNotFound : PyErr
  | attributeError (attr : String) : PyErr
  | keyError : PyErr
  | typeError : PyErr
  | jsonDecodeError : PyErr
deriving DecidableEq, Repr

instance {ε α : Type} [DecidableEq ε] [DecidableEq α] : DecidableEq (Except ε α) := fun x y =>
  match x, y with
  | .error a, .error b =>
    if h : a = b then .isTrue (by rw [h]) else .isFalse fun hc => h (Except.error.inj hc)
  | .ok a, .ok b =>
    if h : a = b then .isTrue (by rw [h]) else .isFalse fun hc => h (Except.ok.inj hc)
  | .error _, .ok _ => .isFalse fun hc => Except.noConfusion hc
  | .ok _, .error _ => .isFalse fun hc => Except.noConfusion hc

/-- The filesystem collaborator, restricted to the `_delta_log` directory of
one table root.  `lastCheckpoint` is the `version` field of the
`_last_checkpoint` pointer file (`none` models the file being absent);
`checkpoints` maps a version to the rows of
`<version:020>.checkpoint.parquet`, each row being the nullable `add.path`
field; `logs` maps a version to the raw bytes of `<version:020>.json`.
Versions are assumed below `10 ^ 20`, so that the zero-padded file names
used by the source order and glob exactly as the version numbers do. -/
structure FS : Type where
  lastCheckpoint : Option Nat
  checkpoints : List (Nat × List (Option String))
  logs : List (Nat × String)

/-- Python `set.add` on a set represented as a duplicate-free list: a no-op
when the element is already present, otherwise the element is appended.
The representation fixes one concrete iteration order for the Python set;
no property proved below depends on that order, and set-level statements
go through `List.toFinset`. -/
def setAdd (x : String) (s : List String) : List String :=
  if x ∈ s then s else s ++ [x]

/-- The mutable state of a Python `DeltaTable` object.  A field of value
`none` in `checkpoint`, `version`, `files` or `pyarrow_dataset` models the
corresponding instance attribute never having been assigned.  The Python
sets are represented as duplicate-free lists (see `setAdd`), and
`pyarrow_dataset` keeps only what matters for snapshot resolution: the
file paths the dataset was constructed over. -/
structure DeltaTable : Type where
  path : String
  checkpoint : Option Nat
  version : Option Nat
  files : Option (List String)
  pyarrow_dataset : Option (List String)
deriving DecidableEq

/-- Embedding of `DeltaTable._is_delta_table`: probe for log entry 0.  The
source defines this method but never calls it. -/
def isDeltaTable (fs : FS) : Bool :=
  (fs.logs.lookup 0).isSome

/-- One iteration of the row loop in `_apply_from_checkpoint`: a non-null,
non-empty `add.path` (Python truthiness) contributes the root-qualified
path. -/
def addCheckpointRow (path : String) (s : List String) (r : Option String) : List String :=
  match r with
  | some p => if p = "" then s else setAdd (path ++ "/" ++ p) s
  | none => s

/-- Embedding of `DeltaTable._apply_from_checkpoint`.  The file set and the
checkpoint attribute are reset first, exactly as in the source, so they
stay assigned even when the subsequent checkpoint read raises; the raised
`FileNotFoundError` is returned alongside the partially mutated state. -/
def applyFromCheckpoint (fs : FS) (checkpointVersion : Nat) (st : DeltaTable) :
    DeltaTable × Option PyErr :=
  let st1 : DeltaTable := { st with files := some [], checkpoint := some checkpointVersion }
  if checkpointVersion = 0 then (st1, none)
  else
    match fs.checkpoints.lookup checkpointVersion with
    | none => (st1, some .fileNotFound)
    | some rows =>
      ({ st1 with files := some (rows.foldl (addCheckpointRow st1.path) []) }, none)

/-- Embedding of the per-record body of the log loop in
`_apply_partial_logs` (the two `if ... in meta_data.keys()` blocks).  Note
the membership test of the remove branch checks the raw `remove.path`
against a set whose elements are root-qualified, and that Python
`set.remove` raises `KeyError` when its argument is absent. -/
def applyMetaData (path : String) (files : List String) (meta : JsonVal) :
    Except PyErr (List String) :=
  match meta with
  | .obj fields =>
    let step1 : Except PyErr (List String) :=
      if fields.any (fun f => f.1 == "add") then
        match pyGet fields "add" with
        | some (.obj addF) =>
          match pyGet addF "path" with
          | some (.str p) => .ok (setAdd (path ++ "/" ++ p) files)
          | some _ => .error .typeError
          | none => .error .keyError
        | some _ => .error .typeError
        | none => .error .keyError
      else .ok files
    match step1 with
    | .error e => .error e
    | .ok files1 =>
      if fields.any (fun f => f.1 == "remove") then
        match pyGet fields "remove" with
        | some (.obj remF) =>
          match pyGet remF "path" with
          | some (.str p) =>
            if p ∈ files1 then
              if (path ++ "/" ++ p) ∈ files1 then .ok (files1.erase (path ++ "/" ++ p))
              else .error .keyError
            else .ok files1
          | some _ => .error .typeError
          | none => .error .keyError
        | some _ => .error .typeError
        | none => .error .keyError
      else .ok files1
  | _ => .error (.attributeError "keys")

/-- Embedding of the line loop of `_apply_partial_logs`: decode each token
produced by `log.split()` with `json.loads` (a failed decode aborts the
replay) and apply it to the running file set. -/
def applyLogLines (path : String) : List String → List String → Except PyErr (List String)
  | [], files => .ok files
  | line :: rest, files =>
    match jsonLoads line with
    | none => .error .jsonDecodeError
    | some meta =>
      match applyMetaData path files meta with
      | .error e => .error e
      | .ok files1 => applyLogLines path rest files1

/-- Apply the raw content of one log file to a file set, tokenising with
Python `str.split()` exactly as the source does. -/
def applyLogContent (path : String) (files : List String) (content : String) :
    Except PyErr (List String) :=
  applyLogLines path (pySplit content) files

/-- Embedding of the glob plus lexicographic sort in `_apply_partial_logs`:
the pattern `{checkpoint//10:019}*.json` matches exactly the log files
whose version lies in the same decade as the checkpoint, and sorting the
zero-padded names lexicographically sorts the versions numerically. -/
def globDecade (fs : FS) (d : Nat) : List Nat :=
  List.insertionSort (· ≤ ·) ((fs.logs.map Prod.fst).filter (fun v => v / 10 == d))

/-- The log-file loop of `_apply_partial_logs`: set `self.version` from the
file name, apply every decoded record, and break once the target version
has just been processed. -/
def applyLogsLoop (fs : FS) (target : Nat) : List Nat → DeltaTable → Except PyErr DeltaTable
  | [], st => .ok st
  | v :: vs, st =>
    let st1 : DeltaTable := { st with version := some v }
    match fs.logs.lookup v with
    | none => .error .fileNotFound
    | some content =>
      match st1.files with
      | none => .error (.attributeError "files")
      | some files =>
        match applyLogContent st1.path files content with
        | .error e => .error e
        | .ok files2 =>
          let st2 : DeltaTable := { st1 with files := some files2 }
          if v = target then .ok st2 else applyLogsLoop fs target vs st2

/-- Embedding of `DeltaTable._apply_partial_logs`.  The glob expression
reads `self.checkpoint` first, so an unassigned checkpoint attribute
raises `AttributeError` here. -/
def applyPartialLogs (fs : FS) (target : Nat) (st : DeltaTable) : Except PyErr DeltaTable :=
  match st.checkpoint with
  | none => .error (.attributeError "checkpoint")
  | some cp => applyLogsLoop fs target (globDecade fs (cp / 10)) st

/-- Embedding of `DeltaTable._as_newest_version`.  The `try` block wraps
both the pointer read and `_apply_from_checkpoint`, and its bare
`except FileNotFoundError: pass` swallows a `FileNotFoundError` raised by
either (the only error `applyFromCheckpoint` can produce), keeping the
partially mutated state.  After the `try`, `self.checkpoint + 9` reads the
checkpoint attribute, which raises `AttributeError` when the pointer file
was absent, because nothing has assigned the attribute yet. -/
def asNewestVersion (fs : FS) (st : DeltaTable) : Except PyErr DeltaTable :=
  let st1 : DeltaTable :=
    match fs.lastCheckpoint with
    | some v => (applyFromCheckpoint fs v st).1
    | none => st
  match st1.checkpoint with
  | none => .error (.attributeError "checkpoint")
  | some cp => applyPartialLogs fs (cp + 9) st1

/-- A freshly constructed `DeltaTable` object before `_as_newest_version`
runs: only `self.path` (and the filesystem, implicit here) are assigned. -/
def initTable (path : String) : DeltaTable :=
  { path := path, checkpoint := none, version := none, files := none, pyarrow_dataset := none }

/-- Embedding of `DeltaTable.__init__`: resolve the newest version, then
construct the pyarrow dataset over `list(self.files)`.  `_is_delta_table`
is never invoked. -/
def openTable (fs : FS) (path : String) : Except PyErr DeltaTable :=
  match asNewestVersion fs (initTable path) with
  | .error e => .error e
  | .ok st =>
    match st.files with
    | none => .error (.attributeError "files")
    | some fl => .ok { st with pyarrow_dataset := some fl }

/-- Embedding of `DeltaTable.as_version`.  The result pairs the state of
the receiver after the call with the object returned: with `inplace` the
two coincide; without it the receiver is deep-copied first and only the
copy is resolved, and the copy's `pyarrow_dataset` is not rebuilt. -/
def asVersion (fs : FS) (st : DeltaTable) (version : Nat) (inplace : Bool) :
    Except PyErr (DeltaTable × DeltaTable) :=
  let nearest := version / 10
  if inplace then
    match applyFromCheckpoint fs nearest st with
    | (_, some e) => .error e
    | (st1, none) =>
      match applyPartialLogs fs version st1 with
      | .error e => .error e
      | .ok st2 =>
        match st2.files with
        | none => .error (.attributeError "files")
        | some fl =>
          let st3 : DeltaTable := { st2 with pyarrow_dataset := some fl }
          .ok (st3, st3)
  else
    match applyFromCheckpoint fs nearest st with
    | (_, some e) => .error e
    | (c1, none) =>
      match applyPartialLogs fs version c1 with
      | .error e => .error e
      | .ok c2 => .ok (st, c2)

/-- Raw content of a one-record log file adding `p`. -/
def addLine (p : String) : String :=
  "\x7b\"add\":\x7b\"path\":\"" ++ p ++ "\"\x7d\x7d"

/-- Raw content of a one-record log file removing `p`. -/
def removeLine (p : String) : String :=
  "\x7b\"remove\":\x7b\"path\":\"" ++ p ++ "\"\x7d\x7d"

/-- Table with no checkpoint whose log adds `A` at version 0 and removes
`A` at version 1. -/
def fsC1 : FS := ⟨some 0, [], [(0, addLine "A"), (1, removeLine "A")]⟩

/-- The snapshot obtained by opening `fsC1` at root `t`: the remove at
version 1 left `t/A` in the file set. -/
def openedC1 : DeltaTable := ⟨"t", some 0, some 1, some ["t/A"], some ["t/A"]⟩

/-- Table with a checkpoint at version 10 listing `A` and `B`, and a log at
version 11 adding `C`. -/
def fsC2 : FS := ⟨some 10, [(10, [some "A", some "B"])], [(11, addLine "C")]⟩

/-- The snapshot obtained by opening `fsC2` at root `t`. -/
def openedC2 : DeltaTable :=
  ⟨"t", some 10, some 11, some ["t/A", "t/B", "t/C"], some ["t/A", "t/B", "t/C"]⟩

/-- A well-formed table (log entry 0 exists) whose `_last_checkpoint`
pointer file is absent. -/
def fsC3 : FS := ⟨none, [], [(0, addLine "A")]⟩

/-- A root that is not a delta table: no log entry 0 (and no log at all),
but a checkpoint pointer naming version 0. -/
def fsC4 : FS := ⟨some 0, [], []⟩

/-- Table whose checkpoint pointer names version 10 although no checkpoint
file exists; the log at version 10 adds `X`. -/
def fsC5 : FS := ⟨some 10, [], [(10, addLine "X")]⟩

/-- Table with a checkpoint at version 10 listing `A` and no log files at
all in the checkpoint's decade. -/
def fsC6 : FS := ⟨some 10, [(10, [some "A"])], []⟩

/-- The snapshot obtained by opening `fsC6` at root `t`: its version
attribute was never assigned. -/
def resolvedC6 : DeltaTable := ⟨"t", some 10, none, some ["t/A"], some ["t/A"]⟩

/-- Table with no checkpoint and two single-add log versions, used for the
`as_version` scenarios. -/
def fsDemo : FS := ⟨some 0, [], [(0, addLine "A"), (1, addLine "B")]⟩

/-- The snapshot obtained by opening `fsDemo` at root `t`. -/
def openedDemo : DeltaTable := ⟨"t", some 0, some 1, some ["t/A", "t/B"], some ["t/A", "t/B"]⟩

/-- The table returned by `asVersion fsDemo openedDemo 0 false`: its file
set was resolved to version 0 but its pyarrow dataset still lists the
files of version 1. -/
def resolvedDemo : DeltaTable := ⟨"t", some 0, some 0, some ["t/A"], some ["t/A", "t/B"]⟩

/-- A single well-formed log line whose `add.path` contains a space. -/
def lineC10 : String := "\x7b\"add\": \x7b\"path\": \"a b\"\x7d\x7d"

/-- Table with no checkpoint whose only log file consists of the single
line `lineC10`. -/
def fsC10 : FS := ⟨some 0, [], [(0, lineC10)]⟩

lemma applyFromCheckpoint_checkpoint (fs : FS) (cv : Nat) (st : DeltaTable) :
    ((applyFromCheckpoint fs cv st).1).checkpoint = some cv := by
  unfold applyFromCheckpoint
  split
  · rfl
  · split <;> rfl

lemma applyFromCheckpoint_version (fs : FS) (cv : Nat) (st : DeltaTable) :
    ((applyFromCheckpoint fs cv st).1).version = st.version := by
  unfold applyFromCheckpoint
  split
  · rfl
  · split <;> rfl

lemma applyLogsLoop_checkpoint (fs : FS) (target : Nat) :
    ∀ (L : List Nat) (st st' : DeltaTable),
      applyLogsLoop fs target L st = .ok st' → st'.checkpoint = st.checkpoint := by
  intro L
  induction L with
  | nil =>
    intro st st' h
    simp only [applyLogsLoop, Except.ok.injEq] at h
    rw [← h]
  | cons v vs ih =>
    intro st st' h
    simp only [applyLogsLoop] at h
    split at h
    · exact Except.noConfusion h
    · split at h
      · exact Except.noConfusion h
      · split at h
        · exact Except.noConfusion h
        · split at h
          · rw [← Except.ok.inj h]
          · have hres := ih _ _ h
            exact hres

lemma applyLogsLoop_version (fs : FS) (target : Nat) :
    ∀ (L : List Nat) (st st' : DeltaTable),
      L.Sorted (· ≤ ·) → L.Nodup → (∀ v ∈ L, v ≤ target) →
      applyLogsLoop fs target L st = .ok st' →
      st'.version = L.getLast?.elim st.version some := by
  intro L
  induction L with
  | nil =>
    intro st st' _ _ _ h
    simp only [applyLogsLoop, Except.ok.injEq] at h
    rw [← h]
    rfl
  | cons v vs ih =>
    intro st st' hsort hnd hbd h
    simp only [applyLogsLoop] at h
    split at h
    · exact Except.noConfusion h
    · split at h
      · exact Except.noConfusion h
      · split at h
        · exact Except.noConfusion h
        · split at h
          · next hbreak =>
            have hvs : vs = [] := by
              rw [List.eq_nil_iff_forall_not_mem]
              intro w hw
              have h1 : v ≤ w := (List.sorted_cons.mp hsort).1 w hw
              have h2 : w ≤ target := hbd w (List.mem_cons_of_mem _ hw)
              have h3 : w = v := le_antisymm (hbreak ▸ h2) h1
              exact (List.nodup_cons.mp hnd).1 (h3 ▸ hw)
            rw [← Except.ok.inj h, hvs]
            rfl
          · have ihres := ih _ _ (List.sorted_cons.mp hsort).2 (List.nodup_cons.mp hnd).2
              (fun w hw => hbd w (List.mem_cons_of_mem _ hw)) h
            cases vs with
            | nil => simpa using ihres
            | cons w ws => rw [List.getLast?_cons_cons]; exact ihres

lemma globDecade_sorted (fs : FS) (d : Nat) : (globDecade fs d).Sorted (· ≤ ·) :=
  List.sorted_insertionSort _ _

lemma globDecade_nodup (fs : FS) (d : Nat) (h : (fs.logs.map Prod.fst).Nodup) :
    (globDecade fs d).Nodup :=
  ((List.perm_insertionSort _ _).nodup_iff).mpr (h.filter _)

lemma globDecade_mem_div (fs : FS) (d : Nat) (v : Nat) (h : v ∈ globDecade fs d) :
    v / 10 = d := by
  have h1 : v ∈ (fs.logs.map Prod.fst).filter (fun w => w / 10 == d) :=
    ((List.perm_insertionSort _ _).mem_iff).mp h
  simpa using (List.mem_filter.mp h1).2

lemma option_elim_none_some (o : Option Nat) : o.elim (none : Option Nat) some = o := by
  cases o <;> rfl

/-- C6 (amended): after a successful open with no explicit target version,
the checkpoint pointer was present, the snapshot's checkpoint equals the
version it named, and the snapshot's version attribute equals the last —
that is, by sortedness the highest — version among the log files of the
checkpoint's decade, remaining unassigned when the decade holds no log
file at all. -/
theorem c6_resolved_version_is_last_decade_log (fs : FS) (path : String) (st : DeltaTable)
    (hnd : (fs.logs.map Prod.fst).Nodup)
    (h : openTable fs path = .ok st) :
    ∃ cv, fs.lastCheckpoint = some cv ∧ st.checkpoint = some cv ∧
      st.version = (globDecade fs (cv / 10)).getLast? ∧
      (globDecade fs (cv / 10)).Sorted (· ≤ ·) := by
  unfold openTable at h
  split at h
  · exact Except.noConfusion h
  · next st1 hnv =>
    split at h
    · exact Except.noConfusion h
    · next fl hf =>
      have hst : { st1 with pyarrow_dataset := some fl } = st := Except.ok.inj h
      unfold asNewestVersion at hnv
      cases hlc : fs.lastCheckpoint with
      | none =>
        rw [hlc] at hnv
        simp [initTable] at hnv
      | some cv =>
        rw [hlc] at hnv
        simp only [applyFromCheckpoint_checkpoint] at hnv
        unfold applyPartialLogs at hnv
        simp only [applyFromCheckpoint_checkpoint] at hnv
        have hbd : ∀ v ∈ globDecade fs (cv / 10), v ≤ cv + 9 := by
          intro v hv
          have hdiv := globDecade_mem_div fs (cv / 10) v hv
          omega
        have hver := applyLogsLoop_version fs (cv + 9) (globDecade fs (cv / 10)) _ st1
          (globDecade_sorted fs (cv / 10)) (globDecade_nodup fs (cv / 10) hnd) hbd hnv
        have hchk := applyLogsLoop_checkpoint fs (cv + 9) (globDecade fs (cv / 10)) _ st1 hnv
        rw [applyFromCheckpoint_version] at hver
        rw [applyFromCheckpoint_checkpoint] at hchk
        refine ⟨cv, rfl, ?_, ?_, globDecade_sorted fs (cv / 10)⟩
        · rw [← hst]
          exact hchk
        · rw [← hst]
          show st1.version = _
          rw [hver]
          exact option_elim_none_some _

/-- C6 witness: the amended round-trip statement instantiated at a table
whose decade holds the two log versions 0 and 1. -/
theorem c6_resolved_version_witness :
    ∃ cv, fsDemo.lastCheckpoint = some cv ∧ openedDemo.checkpoint = some cv ∧
      openedDemo.version = (globDecade fsDemo (cv / 10)).getLast? ∧
      (globDecade fsDemo (cv / 10)).Sorted (· ≤ ·) :=
  c6_resolved_version_is_last_decade_log fsDemo "t" openedDemo (by decide) (by decide)

/-- C6 counterexample: opening a table whose checkpoint decade contains no
log file at all leaves the version attribute unassigned, so the resolved
version does not equal the checkpoint's own version 10 as the claim
states. -/
theorem c6_empty_decade_version_unset :
    openTable fsC6 "t" = .ok resolvedC6 ∧ globDecade fsC6 (10 / 10) = [] ∧
    resolvedC6.checkpoint = some 10 ∧ resolvedC6.version = none ∧
    resolvedC6.version ≠ some 10 := by decide

/-- C8: `as_version` with `inplace=False` deep-copies the receiver and
resolves only the copy, so the receiver's whole state — file set, version
and checkpoint included — is unchanged by a successful call. -/
theorem c8_noninplace_preserves_original (fs : FS) (st : DeltaTable) (version : Nat)
    (p : DeltaTable × DeltaTable) (h : asVersion fs st version false = .ok p) :
    p.1 = st := by
  unfold asVersion at h
  rw [if_neg Bool.false_ne_true] at h
  split at h
  · exact Except.noConfusion h
  · split at h
    · exact Except.noConfusion h
    · rw [← Except.ok.inj h]

/-- C8 witness: resolving version 0 of `fsDemo` without `inplace` returns
the resolved copy and leaves the opened snapshot untouched. -/
theorem c8_noninplace_witness :
    asVersion fsDemo openedDemo 0 false = .ok (openedDemo, resolvedDemo) ∧
    ((openedDemo, resolvedDemo) : DeltaTable × DeltaTable).1 = openedDemo :=
  ⟨by decide, c8_noninplace_preserves_original fsDemo openedDemo 0 _ (by decide)⟩

/-- C9: a decoded remove record whose `remove.path` is absent from the
current file set neither raises nor alters the set. -/
theorem c9_remove_absent_is_noop (files : List String) (root p : String) (h : p ∉ files) :
    applyMetaData root files (.obj [("remove", .obj [("path", .str p)])]) =
      .ok files := by
  simp [applyMetaData, pyGet, h]

/-- C9 witness: removing the untracked path `B` from the set holding only
`t/A` is accepted and is a no-op. -/
theorem c9_remove_absent_witness :
    "B" ∉ ["t/A"] ∧
    applyMetaData "t" ["t/A"] (.obj [("remove", .obj [("path", .str "B")])]) =
      .ok ["t/A"] :=
  ⟨by decide, c9_remove_absent_is_noop ["t/A"] "t" "B" (by decide)⟩

/-- C1: evaluation at the claim's own scenario (`add(A)` at version 0,
`remove(A)` at version 1, root `t`).  Resolving version 0 yields `{t/A}` as
claimed, but resolving version 1 keeps `{t/A}` instead of the claimed
empty set: the replay's membership test compares the raw `remove.path`
against root-qualified entries, so the remove never fires. -/
theorem c1_remove_after_add_keeps_file :
    openTable fsC1 "t" = .ok openedC1 ∧
    asVersion fsC1 openedC1 0 true =
      .ok (⟨"t", some 0, some 0, some ["t/A"], some ["t/A"]⟩,
           ⟨"t", some 0, some 0, some ["t/A"], some ["t/A"]⟩) ∧
    asVersion fsC1 openedC1 1 true = .ok (openedC1, openedC1) ∧
    openedC1.files = some ["t/A"] ∧ ["t/A"].toFinset ≠ (∅ : Finset String) := by decide

/-- C2: evaluation at the claim's own scenario (checkpoint 10 = `{A, B}`,
log 11 = `add(C)`).  `as_version(11)` computes `nearest_checkpoint = 11 //
10 = 1` and tries to read the nonexistent checkpoint *file* of version 1,
so resolution raises `FileNotFoundError` instead of producing
`{A, B, C}`. -/
theorem c2_as_version_reads_wrong_checkpoint :
    openTable fsC2 "t" = .ok openedC2 ∧
    (11 : Nat) / 10 = 1 ∧ fsC2.checkpoints.lookup 1 = none ∧
    asVersion fsC2 openedC2 11 true = .error .fileNotFound ∧
    asVersion fsC2 openedC2 11 false = .error .fileNotFound := by decide

/-- C3: opening a perfectly well-formed table (log entry 0 present) whose
`_last_checkpoint` pointer is absent raises `AttributeError`, because the
`checkpoint` attribute is only ever assigned inside the `try` block that
the missing pointer skips; the claimed recovery to checkpoint version 0
never happens. -/
theorem c3_open_without_pointer_raises_attribute_error :
    isDeltaTable fsC3 = true ∧
    openTable fsC3 "t" = .error (.attributeError "checkpoint") := by decide

/-- C4: opening a root with no version-0 log entry completes without any
error (the source defines `_is_delta_table` but never calls it), instead
of raising `NotADeltaTable` as claimed. -/
theorem c4_open_without_log_zero_succeeds :
    isDeltaTable fsC4 = false ∧
    openTable fsC4 "t" = .ok ⟨"t", some 0, none, some [], some []⟩ := by decide

/-- C5: when the checkpoint pointer names version 10 but the checkpoint
file is absent, the `FileNotFoundError` raised while loading it is
swallowed by the same `except` that guards the pointer read: open
completes, silently replaying the decade over an empty base instead of
propagating the error as claimed. -/
theorem c5_missing_checkpoint_file_error_swallowed :
    fsC5.lastCheckpoint = some 10 ∧ fsC5.checkpoints.lookup 10 = none ∧
    openTable fsC5 "t" = .ok ⟨"t", some 10, some 10, some ["t/X"], some ["t/X"]⟩ := by decide

/-- C7: resolving version 0 of `fsDemo` without `inplace` returns a
snapshot whose resolved file set is `[t/A]` while its pyarrow dataset
still lists the deep-copied original's files `[t/A, t/B]`: the non-in-place
mode never reconstructs the dataset over the new file list. -/
theorem c7_noninplace_dataset_not_rebuilt :
    openTable fsDemo "t" = .ok openedDemo ∧
    asVersion fsDemo openedDemo 0 false = .ok (openedDemo, resolvedDemo) ∧
    resolvedDemo.files = some ["t/A"] ∧
    resolvedDemo.pyarrow_dataset = some ["t/A", "t/B"] ∧
    resolvedDemo.pyarrow_dataset ≠ resolvedDemo.files := by decide

/-- C10: `lineC10` contains no newline, so the log file is one single line,
and that line is valid JSON; yet `log.split()` tokenises it at every space
into four fragments, the first of which fails to decode, so resolution
aborts with a decode error. -/
theorem c10_whitespace_tokenisation_rejects_valid_line :
    (lineC10.data.all fun c => !(c == '\n')) = true ∧
    jsonLoads lineC10 = some (.obj [("add", .obj [("path", .str "a b")])]) ∧
    pySplit lineC10 = ["\x7b\"add\":", "\x7b\"path\":", "\"a", "b\"\x7d\x7d"] ∧
    jsonLoads "\x7b\"add\":" = none ∧
    openTable fsC10 "t" = .error .jsonDecodeError :=
  ⟨by decide, rfl, by decide, rfl, by decide⟩

end DeltaLakeReader
